import Mathlib

/-!
A shallow embedding of src/index.js of the excel-constructor repository.

The file translates the orchestration layer (createBuffer, setHeaders,
setColumnWidths, addDataRow, mergeCells, setComplexHeaders,
getExcelColumnLetter, makeRowsBold, addWorksheet) into Lean definitions.
The external spreadsheet library (ExcelJS) is modelled as a record of the
worksheet state this layer mutates: named cells, per-row fonts, per-column
widths and alignments, merged ranges, a worksheet name and a page setup.
Serialization of a workbook to a byte buffer is an external deterministic
function of the workbook state and is therefore not modelled; equal
workbook states yield equal buffers.

JavaScript particulars that matter here and are modelled faithfully:
  - String.fromCharCode(n) produces the UTF-16 code unit n mod 2 to the 16,
    modelled by jsCharCode.
  - Truthiness of a string field (header.cell, header.from, header.to):
    absent and the empty string are falsy, modelled by jsTruthyStr.
  - The loose comparison (headers.length != data.length) != worksheetNames.length
    on line 23 compares a boolean, coerced to the number 0 or 1, against a
    number; modelled by jsNumberOfBool.
  - Array.isArray: header specs and worksheet names are plain objects and
    strings, never arrays, so a Sum type with an explicit wrap models the
    single-versus-sequence distinction for them.  The data parameter is an
    array in both of its documented forms, an array of row objects or an
    array of arrays of row objects, so Array.isArray is true for both and
    line 20 leaves both unchanged; only a bare object would get wrapped.
    DataArg has one constructor per shape.
  - new Error(message, options) reads only the property named cause from
    options; a complex-header entry has only the fields cell, from, to and
    value, so the resulting error carries the fixed message and no cause.
-/

namespace ExcelConstructor

/-- A cell value this layer writes: a string or a number.  A cell that was
never written, or was assigned the JavaScript value undefined, reads back
as blank, modelled as the absence of a Value (an Option around it). -/
inductive Value
  | str (s : String)
  | int (n : Int)
deriving DecidableEq, Repr

/-- Font state set on a row by makeRowsBold. -/
structure Font where
  bold : Bool
deriving DecidableEq, Repr

/-- Alignment state set on a column. -/
structure Alignment where
  vertical : Option String := none
  horizontal : Option String := none
  wrapText : Option Bool := none
deriving DecidableEq, Repr

/-- Page setup passed to worksheet creation. -/
structure PageSetup where
  paperSize : Nat
  orientation : String
deriving DecidableEq, Repr

/-- One entry of a HeaderSpec object: a display name and a column width. -/
structure HeaderData where
  name : Value
  width : Int
deriving DecidableEq, Repr

/-- A header specification: a plain JS object mapping field names to
HeaderData, modelled by its ordered list of key-value entries (object key
insertion order, which drives column order in the source). -/
abbrev HeaderSpec := List (String × HeaderData)

/-- A row object: a plain JS object, modelled by its ordered entries.
Property access on a missing key yields undefined, modelled as none. -/
abbrev RowObj := List (String × Value)

/-- The data for one worksheet: an ordered array of row objects. -/
abbrev SheetData := List RowObj

/-- A cell key: the column reference exactly as the source addresses it,
as a list of UTF-16 code units, together with the 1-based row number. -/
abbrev CellKey := List Nat × Nat

/-- First-match association lookup, modelling property or keyed access. -/
def assocFind {κ α : Type} [DecidableEq κ] : List (κ × α) → κ → Option α
  | [], _ => none
  | (k, v) :: rest, key => if key = k then some v else assocFind rest key

/-- JS property read rowObject[fieldName]: undefined when the key is absent. -/
def getField (obj : RowObj) (field : String) : Option Value :=
  assocFind obj field

/-- The worksheet state mutated by this layer.  Writes prepend, reads take
the first match, so the latest write wins, like mutation in place. -/
structure Worksheet where
  name : Option String
  pageSetup : Option PageSetup
  rowFonts : List (Nat × Font)
  cells : List (CellKey × Option Value)
  colWidths : List (Nat × Int)
  colAligns : List (Nat × Alignment)
  merges : List String
deriving DecidableEq, Repr

/-- A workbook: its worksheets in creation order. -/
abbrev Workbook := List Worksheet

/-- Reading a cell: an unwritten cell and a cell written with undefined
both read back blank. -/
def getCell (ws : Worksheet) (key : CellKey) : Option Value :=
  (assocFind ws.cells key).getD none

/-- Writing a cell value (possibly undefined) at a key. -/
def setCell (ws : Worksheet) (key : CellKey) (v : Option Value) : Worksheet :=
  { ws with cells := (key, v) :: ws.cells }

/-- The font currently set on a row. -/
def rowFont (ws : Worksheet) (r : Nat) : Option Font :=
  assocFind ws.rowFonts r

/-- The width currently set on a 1-based column index. -/
def getColWidth (ws : Worksheet) (n : Nat) : Option Int :=
  assocFind ws.colWidths n

/-- The alignment currently set on a 1-based column index. -/
def getColAlign (ws : Worksheet) (n : Nat) : Option Alignment :=
  assocFind ws.colAligns n

/-- A JS error value: the message, and the cause read from the options
argument of the Error constructor when one was supplied and had a cause
property. -/
structure JsError where
  message : String
  cause : Option String
deriving DecidableEq, Repr

/-- String.fromCharCode takes its argument modulo 2 to the 16 and yields
that single UTF-16 code unit. -/
def jsCharCode (n : Nat) : Nat := n % 65536

/-- JS truthiness of an optional string field: absent (undefined) and the
empty string are falsy, every other string is truthy. -/
def jsTruthyStr : Option String → Bool
  | none => false
  | some s => s != ""

/-- JS coercion of a boolean to a number for a loose comparison. -/
def jsNumberOfBool (b : Bool) : Nat := if b then 1 else 0

/-- Normalization x = Array.isArray(x) ? x : [x] for parameters whose
single form is never an array (header-spec objects and name strings). -/
def toArray {α : Type} : α ⊕ List α → List α
  | .inl x => [x]
  | .inr xs => xs

/-- The UTF-16 code units of a Lean string (all characters produced in
this development are in the basic plane, where the code unit equals the
code point). -/
def strCodes (s : String) : List Nat := s.data.map Char.toNat

/-- Is a character a decimal digit, by code. -/
def isDigitCode (c : Char) : Bool := 48 ≤ c.toNat && c.toNat ≤ 57

/-- Resolution of a cell address string such as B2 by the library: the
leading non-digit run names the column, the digit tail is the row. -/
def parseAddress (s : String) : CellKey :=
  let cs := s.data
  let colChars := cs.takeWhile (fun c => !(isDigitCode c))
  let rowChars := cs.dropWhile (fun c => !(isDigitCode c))
  (colChars.map Char.toNat, rowChars.foldl (fun acc c => acc * 10 + (c.toNat - 48)) 0)

/-- A fresh worksheet as workbook.addWorksheet creates it in this layer:
the given name (undefined when the caller omitted it) and the fixed page
setup of source line 66: paperSize 9, landscape orientation. -/
def newWorksheet (worksheetName : Option String) : Worksheet :=
  { name := worksheetName
    pageSetup := some { paperSize := 9, orientation := "landscape" }
    rowFonts := []
    cells := []
    colWidths := []
    colAligns := []
    merges := [] }

/-- addWorksheet of source lines 64 to 68: append a fresh worksheet with
the fixed page setup to the workbook. -/
def addWorksheet (workbook : Workbook) (worksheetName : Option String) : Workbook :=
  workbook ++ [newWorksheet worksheetName]

/-- The loop body of makeRowsBold: set font bold on each listed row. -/
def makeRowsBoldList : Worksheet → List Nat → Worksheet
  | ws, [] => ws
  | ws, r :: rs => makeRowsBoldList { ws with rowFonts := (r, { bold := true }) :: ws.rowFonts } rs

/-- makeRowsBold of source lines 75 to 80: normalize the rows argument to
an array, then set font bold on each row. -/
def makeRowsBold (ws : Worksheet) (rows : Nat ⊕ List Nat) : Worksheet :=
  makeRowsBoldList ws (toArray rows)

/-- The fixed alignment setColumnWidths applies to every column it touches. -/
def defaultColumnAlignment : Alignment :=
  { vertical := some "middle", horizontal := some "center", wrapText := some true }

/-- The forEach of setColumnWidths with its running index: column index+1
receives the width at position index and the fixed default alignment. -/
def setColumnWidthsAux : Worksheet → List Int → Nat → Worksheet
  | ws, [], _ => ws
  | ws, w :: t, index =>
      setColumnWidthsAux
        { ws with
          colWidths := (index + 1, w) :: ws.colWidths
          colAligns := (index + 1, defaultColumnAlignment) :: ws.colAligns }
        t (index + 1)

/-- setColumnWidths of source lines 87 to 97. -/
def setColumnWidths (ws : Worksheet) (widths : List Int) : Worksheet :=
  setColumnWidthsAux ws widths 0

/-- The shared cell-write loop of setHeaders and addDataRow: the value at
position index goes to the cell whose column is the single code unit
String.fromCharCode(65 + index), in the given row. -/
def writeRowCells : Worksheet → Nat → List (Option Value) → Nat → Worksheet
  | ws, _, [], _ => ws
  | ws, rowIndex, v :: t, index =>
      writeRowCells (setCell ws ([jsCharCode (65 + index)], rowIndex) v) rowIndex t (index + 1)

/-- setHeaders of source lines 118 to 122: write each header value into
row 1 at the address String.fromCharCode(65 + index) concatenated with 1.
Header values are always present, hence written as defined values. -/
def setHeaders (ws : Worksheet) (headers : List Value) : Worksheet :=
  writeRowCells ws 1 (headers.map some) 0

/-- addDataRow of source lines 160 to 165: write each entry of data, which
may be undefined, into the given row at column String.fromCharCode(65 + index). -/
def addDataRow (ws : Worksheet) (rowIndex : Nat) (data : List (Option Value)) : Worksheet :=
  writeRowCells ws rowIndex data 0

/-- mergeCells of source lines 131 to 135: record the merged range
cellFrom:cellTo, then write the value at the cellFrom address. -/
def mergeCells (ws : Worksheet) (cellFrom cellTo : String) (value : Option Value) : Worksheet :=
  let ws := { ws with merges := (cellFrom ++ ":" ++ cellTo) :: ws.merges }
  setCell ws (parseAddress cellFrom) value

/-- One entry of the headers argument of setComplexHeaders, with the
fields of the source JSDoc: cell, from, to (each possibly absent) and a
value. -/
structure ComplexHeader where
  cell : Option String := none
  from_ : Option String := none
  to_ : Option String := none
  value : Option Value := none
deriving DecidableEq, Repr

/-- The fixed message of the error thrown on a malformed complex-header
entry (source line 149). -/
def complexHeadersErrorMessage : String :=
  "Either cell or from & to fields must be present in headers array objects:"

/-- The error of source line 149: new Error(message, header).  The second
argument of the Error constructor is an options bag from which only a
property named cause is read; a complex-header entry has only the fields
cell, from, to and value, so the constructed error consists of the fixed
message alone and carries nothing of the entry. -/
def complexHeadersError (_header : ComplexHeader) : JsError :=
  { message := complexHeadersErrorMessage, cause := none }

/-- setComplexHeaders of source lines 142 to 152: for each entry, a truthy
cell field wins and the value is written at that address; otherwise truthy
from and to fields merge the range and write the value at the from
address; otherwise the error of line 149 is thrown. -/
def setComplexHeaders (ws : Worksheet) (headers : List ComplexHeader) : Except JsError Worksheet :=
  match headers with
  | [] => .ok ws
  | h :: t =>
      if jsTruthyStr h.cell then
        setComplexHeaders (setCell ws (parseAddress (h.cell.getD "")) h.value) t
      else if jsTruthyStr h.from_ && jsTruthyStr h.to_ then
        setComplexHeaders (mergeCells ws (h.from_.getD "") (h.to_.getD "") h.value) t
      else
        .error (complexHeadersError h)

/-- getExcelColumnLetter of source lines 204 to 212: the bijective
base-26 column label.  The source loop prepends the letter of
(colIndex-1) mod 26 and continues with floor((colIndex-1)/26); the
recursion below builds the same string. -/
def getExcelColumnLetter (colIndex : Nat) : String :=
  if _h : colIndex = 0 then ""
  else
    getExcelColumnLetter ((colIndex - 1) / 26) ++
      String.singleton (Char.ofNat (65 + (colIndex - 1) % 26))
termination_by colIndex
decreasing_by
  have h1 : (colIndex - 1) / 26 ≤ colIndex - 1 := Nat.div_le_self _ _
  omega

/-- The data parameter of createBuffer in its possible runtime shapes.
Per the source JSDoc it is an array of row objects (single-sheet form) or
an array of such arrays (multi-sheet form); both are arrays, so line 20
leaves both unchanged.  A bare object, though outside the documented
types, would be wrapped; it is included for completeness of line 20. -/
inductive DataArg
  | single (o : RowObj)
  | rows (rs : List RowObj)
  | sheets (ss : List SheetData)
deriving DecidableEq, Repr

/-- Line 20, data = Array.isArray(data) ? data : [data], followed by the
element view the loop takes: each element of the normalized array is
either a plain row object or an array of row objects. -/
def normalizeData : DataArg → List (RowObj ⊕ SheetData)
  | .single o => [.inl o]
  | .rows rs => rs.map Sum.inl
  | .sheets ss => ss.map Sum.inr

/-- The fixed validation error of source line 24. -/
def sizeError : JsError :=
  { message := "Size of headers, data and worksheetNames must be equal", cause := none }

/-- The TypeError raised at line 45 when data[i] is undefined, because the
loop runs past the end of the data array. -/
def forEachUndefinedError : JsError :=
  { message := "TypeError: sheetData is undefined", cause := none }

/-- The TypeError raised at line 45 when data[i] is a plain row object, on
which forEach is not a function. -/
def forEachNotFunctionError : JsError :=
  { message := "TypeError: sheetData.forEach is not a function", cause := none }

/-- The steps of one loop iteration of createBuffer that precede the
forEach over sheetData (source lines 33 to 44): create the worksheet,
passing no name to addWorksheet, mark row 1 bold, write the header names
of the spec values in key order, and set the column widths.  These steps
run, and their mutations stand, even when the subsequent forEach throws. -/
def buildSheetPartial (sheetHeaders : HeaderSpec) : Worksheet :=
  let worksheet := newWorksheet none
  let worksheet := makeRowsBold worksheet (Sum.inr [1])
  let headerValues := sheetHeaders.map (fun kv => kv.2.name)
  let worksheet := setHeaders worksheet headerValues
  let columnWidths := sheetHeaders.map (fun kv => kv.2.width)
  setColumnWidths worksheet columnWidths

/-- The forEach of source lines 45 to 51: row object number index is
written to row 2 + index, reading each field of the header key order. -/
def writeDataRows : Worksheet → List String → List RowObj → Nat → Worksheet
  | ws, _, [], _ => ws
  | ws, fieldNames, r :: rs, index =>
      writeDataRows
        (addDataRow ws (2 + index) (fieldNames.map (fun field => getField r field)))
        fieldNames rs (index + 1)

/-- One full loop iteration of createBuffer on a well-formed element:
the pre-forEach steps, then the data rows. -/
def buildSheet (sheetHeaders : HeaderSpec) (sheetData : SheetData) : Worksheet :=
  let worksheet := buildSheetPartial sheetHeaders
  let fieldNames := sheetHeaders.map (fun kv => kv.1)
  writeDataRows worksheet fieldNames sheetData 0

/-- The for loop of createBuffer (source lines 29 to 52), iterating the
header array against the elements of the normalized data array.  In the
source each worksheet is appended to the workbook at creation and then
mutated in place; here the finished worksheet is appended, which yields
the same final workbook.  An error carries the workbook state at throw
time: the TypeError at line 45 strikes after the current iteration
already created its worksheet and wrote its headers and widths. -/
def sheetLoop : List HeaderSpec → List (RowObj ⊕ SheetData) → Workbook →
    Except (JsError × Option Workbook) Workbook
  | [], _, wb => .ok wb
  | sh :: _, [], wb =>
      .error (forEachUndefinedError, some (wb ++ [buildSheetPartial sh]))
  | sh :: _, .inl _ :: _, wb =>
      .error (forEachNotFunctionError, some (wb ++ [buildSheetPartial sh]))
  | sh :: hs, .inr sd :: ds, wb => sheetLoop hs ds (wb ++ [buildSheet sh sd])

/-- createBuffer of source lines 18 to 55.  Headers and worksheet names
are normalized single-to-array (their single forms are never arrays);
data keeps its array shape per normalizeData.  The length check of line
23 is the loose comparison of a boolean against a number.  The result is
the final workbook, of which the returned buffer is the external
serialization; an error carries the workbook state at throw time, none
when the throw happened before createWorkbook ran. -/
def createBuffer (headers : HeaderSpec ⊕ List HeaderSpec) (data : DataArg)
    (worksheetNames : String ⊕ List String) :
    Except (JsError × Option Workbook) Workbook :=
  if jsNumberOfBool ((toArray headers).length != (normalizeData data).length)
      != (toArray worksheetNames).length then
    .error (sizeError, none)
  else
    sheetLoop (toArray headers) (normalizeData data) ([] : Workbook)

/-- The error of a createBuffer result, when it is one. -/
def errOf : Except (JsError × Option Workbook) Workbook → Option JsError
  | .error (e, _) => some e
  | .ok _ => none

/-- The workbook of a successful createBuffer result. -/
def okOf : Except (JsError × Option Workbook) Workbook → Option Workbook
  | .ok wb => some wb
  | .error _ => none

/-- The worksheet of a successful setComplexHeaders result. -/
def okWorksheet : Except JsError Worksheet → Option Worksheet
  | .ok ws => some ws
  | .error _ => none

/-- The example header spec of the spec: an id column of width 10 named
ID and a label column of width 20 named Label. -/
def exampleHeaders : HeaderSpec :=
  [("id", { name := Value.str "ID", width := 10 }),
   ("label", { name := Value.str "Label", width := 20 })]

/-- The example data of the spec: rows (1, a) and (2, b). -/
def exampleData : SheetData :=
  [[("id", Value.int 1), ("label", Value.str "a")],
   [("id", Value.int 2), ("label", Value.str "b")]]

/-- A one-column header spec for concrete createBuffer evaluations. -/
def hId : HeaderSpec := [("id", { name := Value.str "ID", width := 10 })]

/-- A one-field row object. -/
def rowOne : RowObj := [("id", Value.int 1)]

/-- A second one-field row object. -/
def rowTwo : RowObj := [("id", Value.int 2)]

/-- A one-row sheet data. -/
def dOne : SheetData := [rowOne]

/-- A header spec with 27 fields f0 to f26, display names N0 to N26, to
exercise the 27th column. -/
def headers27 : HeaderSpec :=
  (List.range 27).map
    (fun k => ("f" ++ toString k, { name := Value.str ("N" ++ toString k), width := (1 : Int) }))

/-! Helper lemmas. -/

theorem string_eq_of_data_eq (s t : String) (h : s.data = t.data) : s = t := by
  cases s
  cases t
  exact congrArg String.mk h

theorem data_append (s t : String) : (s ++ t).data = s.data ++ t.data := by
  cases s
  cases t
  rfl

theorem data_singleton (c : Char) : (String.singleton c).data = [c] := rfl

theorem letterOf_zero : getExcelColumnLetter 0 = "" := by
  rw [getExcelColumnLetter]
  simp

theorem letterOf_pos (n : Nat) (h : n ≠ 0) :
    getExcelColumnLetter n =
      getExcelColumnLetter ((n - 1) / 26) ++
        String.singleton (Char.ofNat (65 + (n - 1) % 26)) := by
  rw [getExcelColumnLetter]
  simp [h]

theorem letterOf_data (n : Nat) (h : n ≠ 0) :
    (getExcelColumnLetter n).data =
      (getExcelColumnLetter ((n - 1) / 26)).data ++ [Char.ofNat (65 + (n - 1) % 26)] := by
  rw [letterOf_pos n h, data_append, data_singleton]

theorem letterOf_data_ne_nil (n : Nat) (h : n ≠ 0) :
    (getExcelColumnLetter n).data ≠ [] := by
  rw [letterOf_data n h]
  simp

theorem letterChar_inj :
    ∀ a, a < 26 → ∀ b, b < 26 → Char.ofNat (65 + a) = Char.ofNat (65 + b) → a = b := by
  decide

theorem letterChar_upper :
    ∀ r, r < 26 → 65 ≤ (Char.ofNat (65 + r)).toNat ∧ (Char.ofNat (65 + r)).toNat ≤ 90 := by
  decide

theorem letterOf_inj :
    ∀ m, ∀ n, 0 < m → 0 < n →
      getExcelColumnLetter m = getExcelColumnLetter n → m = n := by
  intro m
  induction m using Nat.strong_induction_on with
  | _ m ih =>
    intro n hm hn heq
    have hd : (getExcelColumnLetter m).data = (getExcelColumnLetter n).data := by
      rw [heq]
    rw [letterOf_data m (by omega), letterOf_data n (by omega)] at hd
    have hparts := List.append_inj' hd (by simp)
    have hchar : Char.ofNat (65 + (m - 1) % 26) = Char.ofNat (65 + (n - 1) % 26) := by
      have := hparts.2
      simpa using this
    have hmod : (m - 1) % 26 = (n - 1) % 26 :=
      letterChar_inj _ (Nat.mod_lt _ (by omega)) _ (Nat.mod_lt _ (by omega)) hchar
    have hpre : getExcelColumnLetter ((m - 1) / 26) = getExcelColumnLetter ((n - 1) / 26) :=
      string_eq_of_data_eq _ _ hparts.1
    have hdivm := Nat.div_add_mod (m - 1) 26
    have hdivn := Nat.div_add_mod (n - 1) 26
    rcases Nat.eq_zero_or_pos ((m - 1) / 26) with hq1 | hq1
    · rcases Nat.eq_zero_or_pos ((n - 1) / 26) with hq2 | hq2
      · omega
      · exfalso
        apply letterOf_data_ne_nil ((n - 1) / 26) (by omega)
        rw [← hpre, hq1, letterOf_zero]
    · rcases Nat.eq_zero_or_pos ((n - 1) / 26) with hq2 | hq2
      · exfalso
        apply letterOf_data_ne_nil ((m - 1) / 26) (by omega)
        rw [hpre, hq2, letterOf_zero]
      · have hlt : (m - 1) / 26 < m := by
          have : (m - 1) / 26 ≤ m - 1 := Nat.div_le_self _ _
          omega
        have hq := ih _ hlt _ hq1 hq2 hpre
        omega

theorem letterOf_upper :
    ∀ n, ∀ c ∈ (getExcelColumnLetter n).data, 65 ≤ c.toNat ∧ c.toNat ≤ 90 := by
  intro n
  induction n using Nat.strong_induction_on with
  | _ n ih =>
    intro c hc
    by_cases hn : n = 0
    · rw [hn, letterOf_zero] at hc
      simp at hc
    · rw [letterOf_data n hn] at hc
      rcases List.mem_append.mp hc with h | h
      · have hlt : (n - 1) / 26 < n := by
          have : (n - 1) / 26 ≤ n - 1 := Nat.div_le_self _ _
          omega
        exact ih _ hlt c h
      · have hcc : c = Char.ofNat (65 + (n - 1) % 26) := by simpa using h
        rw [hcc]
        exact letterChar_upper _ (Nat.mod_lt _ (by omega))

theorem letterOf_one : getExcelColumnLetter 1 = "A" := by
  rw [letterOf_pos 1 (by norm_num)]
  norm_num
  rw [letterOf_zero]
  decide

theorem letterOf_26 : getExcelColumnLetter 26 = "Z" := by
  rw [letterOf_pos 26 (by norm_num)]
  norm_num
  rw [letterOf_zero]
  decide

theorem letterOf_27 : getExcelColumnLetter 27 = "AA" := by
  rw [letterOf_pos 27 (by norm_num)]
  norm_num
  rw [letterOf_one]
  decide

theorem letterOf_702 : getExcelColumnLetter 702 = "ZZ" := by
  rw [letterOf_pos 702 (by norm_num)]
  norm_num
  rw [letterOf_26]
  decide

theorem letterOf_703 : getExcelColumnLetter 703 = "AAA" := by
  rw [letterOf_pos 703 (by norm_num)]
  norm_num
  rw [letterOf_27]
  decide

theorem letterOf_small (k : Nat) (h : k < 26) :
    getExcelColumnLetter (k + 1) = String.singleton (Char.ofNat (65 + k)) := by
  rw [letterOf_pos (k + 1) (by omega)]
  have h1 : (k + 1 - 1) / 26 = 0 := by omega
  have h2 : (k + 1 - 1) % 26 = k := by omega
  rw [h1, h2, letterOf_zero]
  apply string_eq_of_data_eq
  rw [data_append, data_singleton]
  rfl

theorem charCode_small :
    ∀ k, k < 26 → (Char.ofNat (65 + k)).toNat = 65 + k := by
  decide

theorem strCodes_letterOf_small (k : Nat) (h : k < 26) :
    strCodes (getExcelColumnLetter (k + 1)) = [65 + k] := by
  rw [letterOf_small k h]
  show (String.singleton (Char.ofNat (65 + k))).data.map Char.toNat = [65 + k]
  rw [data_singleton]
  simp [charCode_small k h]

theorem getCell_setCell (ws : Worksheet) (key key' : CellKey) (v : Option Value) :
    getCell (setCell ws key v) key' = if key' = key then v else getCell ws key' := by
  by_cases h : key' = key <;> simp [getCell, setCell, assocFind, h]

theorem cells_makeRowsBoldList :
    ∀ (rs : List Nat) (ws : Worksheet), (makeRowsBoldList ws rs).cells = ws.cells := by
  intro rs
  induction rs with
  | nil => intro ws; rfl
  | cons r t ih => intro ws; exact ih _

theorem cells_setColumnWidthsAux :
    ∀ (t : List Int) (i : Nat) (ws : Worksheet),
      (setColumnWidthsAux ws t i).cells = ws.cells := by
  intro t
  induction t with
  | nil => intro i ws; rfl
  | cons w t ih => intro i ws; exact ih _ _

theorem rowFonts_writeRowCells :
    ∀ (t : List (Option Value)) (i : Nat) (ws : Worksheet) (row : Nat),
      (writeRowCells ws row t i).rowFonts = ws.rowFonts := by
  intro t
  induction t with
  | nil => intro i ws row; rfl
  | cons v t ih => intro i ws row; exact ih _ _ _

theorem rowFonts_setColumnWidthsAux :
    ∀ (t : List Int) (i : Nat) (ws : Worksheet),
      (setColumnWidthsAux ws t i).rowFonts = ws.rowFonts := by
  intro t
  induction t with
  | nil => intro i ws; rfl
  | cons w t ih => intro i ws; exact ih _ _

theorem rowFonts_writeDataRows :
    ∀ (rows : List RowObj) (fields : List String) (i : Nat) (ws : Worksheet),
      (writeDataRows ws fields rows i).rowFonts = ws.rowFonts := by
  intro rows
  induction rows with
  | nil => intro fields i ws; rfl
  | cons r rs ih =>
      intro fields i ws
      show (writeDataRows (addDataRow ws (2 + i) (fields.map (fun field => getField r field)))
        fields rs (i + 1)).rowFonts = ws.rowFonts
      rw [ih]
      exact rowFonts_writeRowCells _ _ _ _

theorem getCell_writeRowCells_ne :
    ∀ (values : List (Option Value)) (i : Nat) (ws : Worksheet) (row : Nat) (key : CellKey),
      (∀ k, k < values.length → key ≠ ([jsCharCode (65 + (i + k))], row)) →
      getCell (writeRowCells ws row values i) key = getCell ws key := by
  intro values
  induction values with
  | nil => intro i ws row key _; rfl
  | cons v t ih =>
      intro i ws row key hkey
      have h0 : key ≠ ([jsCharCode (65 + i)], row) := by
        have := hkey 0 (Nat.succ_pos _)
        simpa using this
      have htail : ∀ k, k < t.length → key ≠ ([jsCharCode (65 + (i + 1 + k))], row) := by
        intro k hk
        have := hkey (k + 1) (Nat.succ_lt_succ hk)
        have harith : i + (k + 1) = i + 1 + k := by omega
        rwa [harith] at this
      show getCell (writeRowCells (setCell ws ([jsCharCode (65 + i)], row) v) row t (i + 1)) key
        = getCell ws key
      rw [ih (i + 1) _ row key htail, getCell_setCell]
      simp [h0]

theorem getCell_writeRowCells_hit :
    ∀ (values : List (Option Value)) (i k : Nat) (ws : Worksheet) (row : Nat)
      (hk : k < values.length), i + values.length ≤ 65471 →
      getCell (writeRowCells ws row values i) ([jsCharCode (65 + (i + k))], row) =
        values.get ⟨k, hk⟩ := by
  intro values
  induction values with
  | nil => intro i k ws row hk _; exact absurd hk (by simp)
  | cons v t ih =>
      intro i k ws row hk hbound
      have hlen : i + (t.length + 1) ≤ 65471 := by simpa using hbound
      cases k with
      | zero =>
          rw [Nat.add_zero]
          show getCell (writeRowCells (setCell ws ([jsCharCode (65 + i)], row) v) row t (i + 1))
            ([jsCharCode (65 + i)], row) = v
          rw [getCell_writeRowCells_ne t (i + 1) _ row _ ?_, getCell_setCell]
          · simp
          · intro k' hk' heq
            have hc1 : jsCharCode (65 + i) = 65 + i :=
              Nat.mod_eq_of_lt (by omega)
            have hc2 : jsCharCode (65 + (i + 1 + k')) = 65 + (i + 1 + k') :=
              Nat.mod_eq_of_lt (by omega)
            rw [hc1, hc2] at heq
            have : 65 + i = 65 + (i + 1 + k') := by
              have := congrArg Prod.fst heq
              simpa using this
            omega
      | succ k' =>
          have harith : i + (k' + 1) = i + 1 + k' := by omega
          rw [harith]
          show getCell (writeRowCells (setCell ws ([jsCharCode (65 + i)], row) v) row t (i + 1))
            ([jsCharCode (65 + (i + 1 + k'))], row) = t.get ⟨k', Nat.lt_of_succ_lt_succ hk⟩
          exact ih (i + 1) k' _ row (Nat.lt_of_succ_lt_succ hk) (by omega)

theorem writeRowCells_mem_of_mem :
    ∀ (values : List (Option Value)) (i : Nat) (ws : Worksheet) (row : Nat)
      (x : CellKey × Option Value),
      x ∈ ws.cells → x ∈ (writeRowCells ws row values i).cells := by
  intro values
  induction values with
  | nil => intro i ws row x hx; exact hx
  | cons v t ih =>
      intro i ws row x hx
      exact ih (i + 1) _ row x (List.mem_cons_of_mem _ hx)

theorem writeRowCells_mem :
    ∀ (values : List (Option Value)) (i k : Nat) (ws : Worksheet) (row : Nat)
      (hk : k < values.length),
      (([jsCharCode (65 + (i + k))], row), values.get ⟨k, hk⟩) ∈
        (writeRowCells ws row values i).cells := by
  intro values
  induction values with
  | nil => intro i k ws row hk; exact absurd hk (by simp)
  | cons v t ih =>
      intro i k ws row hk
      cases k with
      | zero =>
          rw [Nat.add_zero]
          exact writeRowCells_mem_of_mem t (i + 1) _ row _ (List.mem_cons_self _ _)
      | succ k' =>
          have harith : i + (k' + 1) = i + 1 + k' := by omega
          rw [harith]
          exact ih (i + 1) k' _ row (Nat.lt_of_succ_lt_succ hk)

theorem getCell_writeDataRows_low :
    ∀ (rows : List RowObj) (fields : List String) (i : Nat) (ws : Worksheet) (key : CellKey),
      key.2 < 2 + i →
      getCell (writeDataRows ws fields rows i) key = getCell ws key := by
  intro rows
  induction rows with
  | nil => intro fields i ws key _; rfl
  | cons r rs ih =>
      intro fields i ws key hrow
      show getCell (writeDataRows (addDataRow ws (2 + i) (fields.map (fun field => getField r field)))
        fields rs (i + 1)) key = getCell ws key
      rw [ih fields (i + 1) _ key (by omega)]
      apply getCell_writeRowCells_ne
      intro k _ heq
      have := congrArg Prod.snd heq
      simp at this
      omega

theorem getCell_writeDataRows_hit :
    ∀ (rows : List RowObj) (fields : List String) (i j k : Nat) (ws : Worksheet)
      (hj : j < rows.length) (hk : k < fields.length), fields.length ≤ 65471 →
      getCell (writeDataRows ws fields rows i) ([jsCharCode (65 + k)], 2 + (i + j)) =
        getField (rows.get ⟨j, hj⟩) (fields.get ⟨k, hk⟩) := by
  intro rows
  induction rows with
  | nil => intro fields i j k ws hj _ _; exact absurd hj (by simp)
  | cons r rs ih =>
      intro fields i j k ws hj hk hflen
      cases j with
      | zero =>
          rw [Nat.add_zero]
          show getCell (writeDataRows (addDataRow ws (2 + i) (fields.map (fun field => getField r field)))
            fields rs (i + 1)) ([jsCharCode (65 + k)], 2 + i) =
            getField r (fields.get ⟨k, hk⟩)
          rw [getCell_writeDataRows_low rs fields (i + 1) _ _ (by omega)]
          have hmap : k < (fields.map (fun field => getField r field)).length := by
            simpa using hk
          have := getCell_writeRowCells_hit (fields.map (fun field => getField r field))
            0 k ws (2 + i) hmap (by simpa using hflen)
          rw [Nat.zero_add] at this
          rw [show addDataRow ws (2 + i) (fields.map (fun field => getField r field)) =
            writeRowCells ws (2 + i) (fields.map (fun field => getField r field)) 0 from rfl]
          rw [this]
          simp
      | succ j' =>
          have harith : 2 + (i + (j' + 1)) = 2 + (i + 1 + j') := by omega
          rw [harith]
          show getCell (writeDataRows (addDataRow ws (2 + i) (fields.map (fun field => getField r field)))
            fields rs (i + 1)) ([jsCharCode (65 + k)], 2 + (i + 1 + j')) =
            getField (rs.get ⟨j', Nat.lt_of_succ_lt_succ hj⟩) (fields.get ⟨k, hk⟩)
          exact ih fields (i + 1) j' k _ (Nat.lt_of_succ_lt_succ hj) hk hflen

theorem colProps_setColumnWidthsAux_frame :
    ∀ (t : List Int) (i j : Nat) (ws : Worksheet), j ≤ i →
      getColWidth (setColumnWidthsAux ws t i) j = getColWidth ws j ∧
      getColAlign (setColumnWidthsAux ws t i) j = getColAlign ws j := by
  intro t
  induction t with
  | nil => intro i j ws _; exact ⟨rfl, rfl⟩
  | cons w t ih =>
      intro i j ws hj
      simp only [setColumnWidthsAux]
      constructor
      · rw [(ih (i + 1) j _ (by omega)).1]
        simp [getColWidth, assocFind, show ¬j = i + 1 by omega]
      · rw [(ih (i + 1) j _ (by omega)).2]
        simp [getColAlign, assocFind, show ¬j = i + 1 by omega]

theorem colProps_setColumnWidthsAux_hit :
    ∀ (t : List Int) (i k : Nat) (ws : Worksheet) (hk : k < t.length),
      getColWidth (setColumnWidthsAux ws t i) (i + k + 1) = some (t.get ⟨k, hk⟩) ∧
      getColAlign (setColumnWidthsAux ws t i) (i + k + 1) = some defaultColumnAlignment := by
  intro t
  induction t with
  | nil => intro i k ws hk; exact absurd hk (by simp)
  | cons w t ih =>
      intro i k ws hk
      cases k with
      | zero =>
          simp only [setColumnWidthsAux]
          rw [Nat.add_zero]
          constructor
          · rw [(colProps_setColumnWidthsAux_frame t (i + 1) (i + 1) _ (by omega)).1]
            simp [getColWidth, assocFind]
          · rw [(colProps_setColumnWidthsAux_frame t (i + 1) (i + 1) _ (by omega)).2]
            simp [getColAlign, assocFind]
      | succ k' =>
          simp only [setColumnWidthsAux]
          have harith : i + (k' + 1) + 1 = i + 1 + k' + 1 := by omega
          rw [harith]
          exact ih (i + 1) k' _ (Nat.lt_of_succ_lt_succ hk)

theorem getCell_setColumnWidthsAux (t : List Int) (i : Nat) (ws : Worksheet) (key : CellKey) :
    getCell (setColumnWidthsAux ws t i) key = getCell ws key := by
  unfold getCell
  rw [cells_setColumnWidthsAux]

theorem buildSheet_header_cell (sh : HeaderSpec) (sd : SheetData) (k : Nat)
    (hk : k < sh.length) (hlen : sh.length ≤ 26) :
    getCell (buildSheet sh sd) ([65 + k], 1) = some (sh.get ⟨k, hk⟩).2.name := by
  show getCell (writeDataRows (setColumnWidthsAux (writeRowCells (makeRowsBoldList (newWorksheet none) [1]) 1
      ((sh.map (fun kv => kv.2.name)).map some) 0) (sh.map (fun kv => kv.2.width)) 0)
      (sh.map (fun kv => kv.1)) sd 0) ([65 + k], 1) = some (sh.get ⟨k, hk⟩).2.name
  rw [getCell_writeDataRows_low sd _ 0 _ _ (by norm_num)]
  rw [getCell_setColumnWidthsAux]
  have hkm : k < ((sh.map (fun kv => kv.2.name)).map some).length := by simpa using hk
  have hhit := getCell_writeRowCells_hit ((sh.map (fun kv => kv.2.name)).map some) 0 k
    (makeRowsBoldList (newWorksheet none) [1]) 1 hkm (by simp; omega)
  rw [Nat.zero_add] at hhit
  have hcode : jsCharCode (65 + k) = 65 + k := Nat.mod_eq_of_lt (by omega)
  rw [hcode] at hhit
  rw [hhit]
  simp [List.get_eq_getElem]

theorem buildSheet_data_cell (sh : HeaderSpec) (sd : SheetData) (j k : Nat)
    (hj : j < sd.length) (hk : k < sh.length) (hlen : sh.length ≤ 26) :
    getCell (buildSheet sh sd) ([65 + k], 2 + j) =
      getField (sd.get ⟨j, hj⟩) (sh.get ⟨k, hk⟩).1 := by
  show getCell (writeDataRows (buildSheetPartial sh) (sh.map (fun kv => kv.1)) sd 0)
    ([65 + k], 2 + j) = getField (sd.get ⟨j, hj⟩) (sh.get ⟨k, hk⟩).1
  have hkf : k < (sh.map (fun kv => kv.1)).length := by simpa using hk
  have hhit := getCell_writeDataRows_hit sd (sh.map (fun kv => kv.1)) 0 j k
    (buildSheetPartial sh) hj hkf (by simp; omega)
  rw [Nat.zero_add] at hhit
  have hcode : jsCharCode (65 + k) = 65 + k := Nat.mod_eq_of_lt (by omega)
  rw [hcode] at hhit
  rw [hhit]
  have hfield : (sh.map (fun kv => kv.1)).get ⟨k, hkf⟩ = (sh.get ⟨k, hk⟩).1 := by
    simp [List.get_eq_getElem]
  rw [hfield]

theorem buildSheet_bold (sh : HeaderSpec) (sd : SheetData) :
    rowFont (buildSheet sh sd) 1 = some { bold := true } := by
  show assocFind (writeDataRows (setColumnWidthsAux (writeRowCells (makeRowsBoldList (newWorksheet none) [1]) 1
      ((sh.map (fun kv => kv.2.name)).map some) 0) (sh.map (fun kv => kv.2.width)) 0)
      (sh.map (fun kv => kv.1)) sd 0).rowFonts 1 = some { bold := true }
  rw [rowFonts_writeDataRows, rowFonts_setColumnWidthsAux, rowFonts_writeRowCells]
  rfl

/-! Claim theorems. -/

/-- C2 (amended: restricted to header specs with at most 26 fields, since
column addressing by single character breaks past column 26): for every
worksheet request the loop body of createBuffer processes, the display
names of the header-spec values land in row 1 in key order starting at
column A, each data row object lands in row 2+j with one column per field
in key order (a missing field reads back blank), and row 1 is bold; the
id/label example produces row 1 = ID, Label, row 2 = 1, a, row 3 = 2, b,
bold row 1, and column widths 10 and 20. -/
theorem c2_header_data_round_trip :
    (∀ (sheetHeaders : HeaderSpec) (sheetData : SheetData), sheetHeaders.length ≤ 26 →
      (∀ k (hk : k < sheetHeaders.length),
        getCell (buildSheet sheetHeaders sheetData) (strCodes (getExcelColumnLetter (k + 1)), 1) =
          some (sheetHeaders.get ⟨k, hk⟩).2.name) ∧
      (∀ j (hj : j < sheetData.length), ∀ k (hk : k < sheetHeaders.length),
        getCell (buildSheet sheetHeaders sheetData) (strCodes (getExcelColumnLetter (k + 1)), 2 + j) =
          getField (sheetData.get ⟨j, hj⟩) (sheetHeaders.get ⟨k, hk⟩).1) ∧
      rowFont (buildSheet sheetHeaders sheetData) 1 = some { bold := true }) ∧
    (getCell (buildSheet exampleHeaders exampleData) ([65], 1) = some (Value.str "ID") ∧
     getCell (buildSheet exampleHeaders exampleData) ([66], 1) = some (Value.str "Label") ∧
     getCell (buildSheet exampleHeaders exampleData) ([65], 2) = some (Value.int 1) ∧
     getCell (buildSheet exampleHeaders exampleData) ([66], 2) = some (Value.str "a") ∧
     getCell (buildSheet exampleHeaders exampleData) ([65], 3) = some (Value.int 2) ∧
     getCell (buildSheet exampleHeaders exampleData) ([66], 3) = some (Value.str "b") ∧
     rowFont (buildSheet exampleHeaders exampleData) 1 = some { bold := true } ∧
     getColWidth (buildSheet exampleHeaders exampleData) 1 = some 10 ∧
     getColWidth (buildSheet exampleHeaders exampleData) 2 = some 20) := by
  constructor
  · intro sh sd hlen
    refine ⟨?_, ?_, buildSheet_bold sh sd⟩
    · intro k hk
      rw [strCodes_letterOf_small k (by omega)]
      exact buildSheet_header_cell sh sd k hk hlen
    · intro j hj k hk
      rw [strCodes_letterOf_small k (by omega)]
      exact buildSheet_data_cell sh sd j k hj hk hlen
  · exact ⟨by decide, by decide, by decide, by decide, by decide, by decide, by decide,
      by decide, by decide⟩

/-- Witness for C2: the amended theorem applied to the id/label example. -/
theorem c2_header_data_round_trip_witness :
    rowFont (buildSheet exampleHeaders exampleData) 1 = some { bold := true } :=
  (c2_header_data_round_trip.1 exampleHeaders exampleData (by decide)).2.2

/-- Counterexample for C2 as stated: with 27 header fields, the display
name of field 27 is not written at column AA of row 1 (that cell stays
blank); it lands at the single code unit 91, one past Z. -/
theorem c2_counterexample :
    headers27.length = 27 ∧
    (headers27.get ⟨26, by decide⟩).2.name = Value.str "N26" ∧
    strCodes (getExcelColumnLetter 27) = [65, 65] ∧
    getCell (buildSheet headers27 []) ([65, 65], 1) = none ∧
    getCell (buildSheet headers27 []) ([jsCharCode (65 + 26)], 1) = some (Value.str "N26") := by
  refine ⟨by decide, by decide, ?_, by decide, by decide⟩
  rw [letterOf_27]
  decide

/-- C3: getExcelColumnLetter is injective on 1..1000 (each index has a
unique label), follows exactly the recurrence of the source loop, and
takes the expected values at 1, 26, 27, 702 and 703. -/
theorem c3_column_letter_bijection :
    (∀ m n, 1 ≤ m → m ≤ 1000 → 1 ≤ n → n ≤ 1000 →
      getExcelColumnLetter m = getExcelColumnLetter n → m = n) ∧
    (∀ n, 0 < n →
      getExcelColumnLetter n =
        getExcelColumnLetter ((n - 1) / 26) ++
          String.singleton (Char.ofNat (65 + (n - 1) % 26))) ∧
    getExcelColumnLetter 1 = "A" ∧
    getExcelColumnLetter 26 = "Z" ∧
    getExcelColumnLetter 27 = "AA" ∧
    getExcelColumnLetter 702 = "ZZ" ∧
    getExcelColumnLetter 703 = "AAA" := by
  refine ⟨?_, ?_, letterOf_one, letterOf_26, letterOf_27, letterOf_702, letterOf_703⟩
  · intro m n hm _ hn _ h
    exact letterOf_inj m n (by omega) (by omega) h
  · intro n hn
    exact letterOf_pos n (by omega)

/-- Witness for C3: the recurrence at 703. -/
theorem c3_column_letter_bijection_witness :
    getExcelColumnLetter 703 =
      getExcelColumnLetter 27 ++ String.singleton (Char.ofNat 65) := by
  have h := c3_column_letter_bijection.2.1 703 (by norm_num)
  norm_num at h
  exact h

/-- C8: setColumnWidths gives the column at 1-based index k+1 the width
at 0-based index k, and the fixed default alignment middle, center,
wrapText on every such column. -/
theorem c8_column_widths (ws : Worksheet) (widths : List Int) (k : Nat)
    (hk : k < widths.length) :
    getColWidth (setColumnWidths ws widths) (k + 1) = some (widths.get ⟨k, hk⟩) ∧
    getColAlign (setColumnWidths ws widths) (k + 1) =
      some { vertical := some "middle", horizontal := some "center", wrapText := some true } := by
  have h := colProps_setColumnWidthsAux_hit widths 0 k ws hk
  simpa [setColumnWidths, defaultColumnAlignment] using h

/-- Witness for C8 at widths 10, 20 and k = 1. -/
theorem c8_column_widths_witness :
    getColWidth (setColumnWidths (newWorksheet none) [10, 20]) 2 = some 20 ∧
    getColAlign (setColumnWidths (newWorksheet none) [10, 20]) 2 =
      some { vertical := some "middle", horizontal := some "center", wrapText := some true } := by
  have h := c8_column_widths (newWorksheet none) [10, 20] 1 (by decide)
  simpa using h

/-- C9 (amended): for 0-based column index i below 26 the single code
unit 65+i used by setHeaders and addDataRow coincides with
getExcelColumnLetter (i+1); for 26 ≤ i ≤ 65470 the code unit 65+i is a
single character that is not an uppercase letter A to Z, hence no valid
bijective base-26 column label, and differs from
getExcelColumnLetter (i+1) (for i ≥ 32 it can be a lowercase letter, and
at i = 65536 the code unit wraps around to the letter A).  The last two
parts tie the scheme to the functions: the value at position k is written
under key column code 65+k mod 2 to the 16. -/
theorem c9_column_addressing :
    (∀ i, i < 26 → [jsCharCode (65 + i)] = strCodes (getExcelColumnLetter (i + 1))) ∧
    (∀ i, 26 ≤ i → i ≤ 65470 →
      ¬(65 ≤ jsCharCode (65 + i) ∧ jsCharCode (65 + i) ≤ 90) ∧
      [jsCharCode (65 + i)] ≠ strCodes (getExcelColumnLetter (i + 1))) ∧
    (∀ (ws : Worksheet) (vals : List Value) (k : Nat) (hk : k < vals.length),
      (([jsCharCode (65 + k)], 1), some (vals.get ⟨k, hk⟩)) ∈ (setHeaders ws vals).cells) ∧
    (∀ (ws : Worksheet) (r : Nat) (ds : List (Option Value)) (k : Nat) (hk : k < ds.length),
      (([jsCharCode (65 + k)], r), ds.get ⟨k, hk⟩) ∈ (addDataRow ws r ds).cells) := by
  refine ⟨?_, ?_, ?_, ?_⟩
  · intro i hi
    rw [strCodes_letterOf_small i hi]
    simp [jsCharCode, Nat.mod_eq_of_lt (show 65 + i < 65536 by omega)]
  · intro i h26 hbound
    have hcode : jsCharCode (65 + i) = 65 + i := Nat.mod_eq_of_lt (by omega)
    rw [hcode]
    refine ⟨by omega, ?_⟩
    intro heq
    have hmem : (65 + i) ∈ (getExcelColumnLetter (i + 1)).data.map Char.toNat := by
      rw [show (getExcelColumnLetter (i + 1)).data.map Char.toNat
        = strCodes (getExcelColumnLetter (i + 1)) from rfl, ← heq]
      simp
    obtain ⟨c, hc, hcn⟩ := List.mem_map.mp hmem
    have hup := letterOf_upper (i + 1) c hc
    omega
  · intro ws vals k hk
    have hkm : k < (vals.map some).length := by simpa using hk
    have hmem := writeRowCells_mem (vals.map some) 0 k ws 1 hkm
    rw [Nat.zero_add] at hmem
    have hg : (vals.map some).get ⟨k, hkm⟩ = some (vals.get ⟨k, hk⟩) := by
      simp [List.get_eq_getElem]
    rw [hg] at hmem
    exact hmem
  · intro ws r ds k hk
    have hmem := writeRowCells_mem ds 0 k ws r hk
    rw [Nat.zero_add] at hmem
    exact hmem

/-- Witness for C9 at i = 26: the address is code unit 91, not an
uppercase letter and not the label AA. -/
theorem c9_column_addressing_witness :
    ¬(65 ≤ jsCharCode (65 + 26) ∧ jsCharCode (65 + 26) ≤ 90) ∧
    [jsCharCode (65 + 26)] ≠ strCodes (getExcelColumnLetter 27) :=
  c9_column_addressing.2.1 26 (by norm_num) (by norm_num)

/-- Counterexample for C9 as stated: the address used for index 32 is the
code unit 97, the lowercase letter a, so the addresses past column 26 are
not all non-letter characters; and at index 65536 String.fromCharCode
wraps around to code unit 65, the valid column label A. -/
theorem c9_counterexample :
    (Char.ofNat (jsCharCode (65 + 32))).isAlpha = true ∧
    jsCharCode (65 + 32) = 97 ∧
    jsCharCode (65 + 65536) = 65 ∧
    [jsCharCode (65 + 65536)] = strCodes (getExcelColumnLetter 1) := by
  refine ⟨by decide, by decide, by decide, ?_⟩
  rw [letterOf_one]
  decide

theorem sheetLoop_error_kind :
    ∀ (hs : List HeaderSpec) (ds : List (RowObj ⊕ SheetData)) (wb : Workbook)
      (e : JsError) (w : Option Workbook),
      sheetLoop hs ds wb = .error (e, w) →
      e = forEachUndefinedError ∨ e = forEachNotFunctionError := by
  intro hs
  induction hs with
  | nil => intro ds wb e w h; exact Except.noConfusion h
  | cons sh hs ih =>
      intro ds wb e w h
      cases ds with
      | nil =>
          injection h with h1
          injection h1 with h2 h3
          exact Or.inl h2.symm
      | cons d ds =>
          cases d with
          | inl o =>
              injection h with h1
              injection h1 with h2 h3
              exact Or.inr h2.symm
          | inr sd => exact ih ds _ e w h

/-- C1: the length check of line 23 compares a boolean, coerced to 0 or
1, against the worksheet-name count: with all three normalized lengths
equal to 1 the call throws the validation error, though the claim says
equal lengths never do, and with unequal lengths 2, 3 and 1 the call
throws no validation error at all. -/
theorem c1_length_check_evaluation :
    createBuffer (.inl hId) (.sheets [dOne]) (.inl "S") = .error (sizeError, none) ∧
    errOf (createBuffer (.inr [hId, hId]) (.sheets [dOne, dOne, dOne]) (.inr ["S"])) = none := by
  exact ⟨rfl, rfl⟩

/-- C4: the page setup of every created worksheet is paperSize 9 with
landscape orientation, as claimed, but createBuffer calls addWorksheet
without the name argument, so both worksheets of this call carry no name
instead of the given worksheet name. -/
theorem c4_worksheet_name_evaluation :
    (okOf (createBuffer (.inr [hId, hId]) (.sheets [dOne, dOne, dOne]) (.inr ["SheetName"]))).map
        (fun wb => wb.map (fun ws => ws.name)) = some [none, none] ∧
    (okOf (createBuffer (.inr [hId, hId]) (.sheets [dOne, dOne, dOne]) (.inr ["SheetName"]))).map
        (fun wb => wb.map (fun ws => ws.pageSetup)) =
      some [some { paperSize := 9, orientation := "landscape" },
            some { paperSize := 9, orientation := "landscape" }] := by
  exact ⟨rfl, rfl⟩

/-- C5: the dispatch of setComplexHeaders behaves as claimed on single
cells and on merge ranges, but the error raised on a malformed entry does
not include the entry: the entry is passed as the options argument of the
Error constructor, which reads only a cause property the entry does not
have, so the raised error is the same fixed value whatever the malformed
entry contains. -/
theorem c5_configuration_error_evaluation :
    setComplexHeaders (newWorksheet none) [{ value := some (Value.str "x") }] =
      .error { message := complexHeadersErrorMessage, cause := none } ∧
    (∀ h₁ h₂ : ComplexHeader, complexHeadersError h₁ = complexHeadersError h₂) ∧
    (okWorksheet (setComplexHeaders (newWorksheet none)
        [{ cell := some "B2", value := some (Value.str "T") }])).map
      (fun ws => getCell ws ([66], 2)) = some (some (Value.str "T")) ∧
    (okWorksheet (setComplexHeaders (newWorksheet none)
        [{ from_ := some "A1", to_ := some "B1", value := some (Value.str "Title") }])).map
      (fun ws => (getCell ws ([65], 1), ws.merges)) =
      some (some (Value.str "Title"), ["A1:B1"]) := by
  refine ⟨rfl, fun h₁ h₂ => rfl, ?_, ?_⟩
  · decide
  · decide

/-- C6: the single-form call differs from the wrapped call, because
Array.isArray(data) is true for a plain data array of row objects and
line 20 never wraps it: here the single-form call passes the buggy length
check with lengths 1, 2, 1 and throws a TypeError after creating a
worksheet, while the wrapped call throws the validation error with
nothing created. -/
theorem c6_single_vs_wrapped_evaluation :
    errOf (createBuffer (.inl hId) (.rows [rowOne, rowTwo]) (.inl "S")) =
      some forEachNotFunctionError ∧
    errOf (createBuffer (.inr [hId]) (.sheets [[rowOne, rowTwo]]) (.inr ["S"])) =
      some sizeError ∧
    createBuffer (.inl hId) (.rows [rowOne, rowTwo]) (.inl "S") ≠
      createBuffer (.inr [hId]) (.sheets [[rowOne, rowTwo]]) (.inr ["S"]) := by
  refine ⟨rfl, rfl, ?_⟩
  intro heq
  have h1 := congrArg errOf heq
  rw [show errOf (createBuffer (.inl hId) (.rows [rowOne, rowTwo]) (.inl "S")) =
      some forEachNotFunctionError from rfl,
    show errOf (createBuffer (.inr [hId]) (.sheets [[rowOne, rowTwo]]) (.inr ["S"])) =
      some sizeError from rfl] at h1
  exact absurd h1 (by decide)

/-- C7: whenever createBuffer raises the validation error it does so
before the workbook or any worksheet is created and before any mutation:
the raised error carries no workbook state at throw time. -/
theorem c7_validation_before_any_mutation
    (headers : HeaderSpec ⊕ List HeaderSpec) (data : DataArg)
    (worksheetNames : String ⊕ List String) (wbOpt : Option Workbook)
    (h : createBuffer headers data worksheetNames = .error (sizeError, wbOpt)) :
    wbOpt = none := by
  unfold createBuffer at h
  split at h
  · injection h with h1
    injection h1 with h2 h3
    exact h3.symm
  · rcases sheetLoop_error_kind _ _ _ _ _ h with he | he
    · exact absurd he (by decide)
    · exact absurd he (by decide)

/-- Witness for C7 at lengths 2, 2 and 1, where the validation error is
raised with no workbook created. -/
theorem c7_validation_before_any_mutation_witness :
    createBuffer (.inr [hId, hId]) (.sheets [dOne, dOne]) (.inr ["S"]) =
      .error (sizeError, none) ∧
    (none : Option Workbook) = none := by
  refine ⟨rfl, ?_⟩
  exact c7_validation_before_any_mutation (.inr [hId, hId]) (.sheets [dOne, dOne])
    (.inr ["S"]) none rfl

/-- C10: in setComplexHeaders a truthy cell field takes precedence over a
from and to pair: only the single-cell write happens, no merge and no
error; and an entry whose cell field is the falsy empty string with
truthy from and to is treated as a merge-range entry. -/
theorem c10_cell_precedence_and_falsy_cell
    (ws : Worksheet) (c f t : String) (v : Option Value)
    (hc : c ≠ "") (hf : f ≠ "") (ht : t ≠ "") :
    setComplexHeaders ws [{ cell := some c, from_ := some f, to_ := some t, value := v }] =
      .ok (setCell ws (parseAddress c) v) ∧
    (setCell ws (parseAddress c) v).merges = ws.merges ∧
    setComplexHeaders ws [{ cell := some "", from_ := some f, to_ := some t, value := v }] =
      .ok (mergeCells ws f t v) := by
  refine ⟨?_, rfl, ?_⟩
  · simp [setComplexHeaders, jsTruthyStr, bne_iff_ne, hc]
  · simp [setComplexHeaders, jsTruthyStr, bne_iff_ne, hf, ht]

/-- Witness for C10 with cell B2 against range A1 to B1. -/
theorem c10_cell_precedence_and_falsy_cell_witness :
    setComplexHeaders (newWorksheet none)
        [{ cell := some "B2", from_ := some "A1", to_ := some "B1",
           value := some (Value.str "x") }] =
      .ok (setCell (newWorksheet none) (parseAddress "B2") (some (Value.str "x"))) ∧
    (setCell (newWorksheet none) (parseAddress "B2") (some (Value.str "x"))).merges =
      (newWorksheet none).merges ∧
    setComplexHeaders (newWorksheet none)
        [{ cell := some "", from_ := some "A1", to_ := some "B1",
           value := some (Value.str "x") }] =
      .ok (mergeCells (newWorksheet none) "A1" "B1" (some (Value.str "x"))) :=
  c10_cell_precedence_and_falsy_cell (newWorksheet none) "B2" "A1" "B1"
    (some (Value.str "x")) (by decide) (by decide) (by decide)

end ExcelConstructor
